import Mathlib

set_option autoImplicit false

/-!
Shallow embedding of the AWSSecurityLens multi-account, multi-region scan
orchestration engine and its finding store.

Sources embedded:
- src/scanner/index.ts   (SecurityScanner.scanAccount, scanAllAccounts)
- src/db/service.ts      (DatabaseService: getAccount, getEnabledRegions,
                          addRegion, deleteAccount, storeFindingsForAccount,
                          getFindings; schema created by initialize)
- src/db/schema.ts       (initializeDatabase: the alternative schema with the
                          UNIQUE(account_id, region) constraint)
- src/scanner/services/guardduty.ts (GuardDutyScanner.scan)
- src/scanner/services/iam.ts       (IAMScanner.scan)

JavaScript errors are modelled as records carrying the observable parts the
code inspects (error.name, error.message, error.$metadata.httpStatusCode).
AWS network calls are modelled as environments mapping call sites to a
result or an error.  Database rows are lists; the AUTOINCREMENT id columns
are explicit counters.  SQLite transaction semantics (ROLLBACK restores the
pre-transaction state) is modelled by returning the pre-state on a failed
transactional operation.
-/

/-- Observable shape of a thrown JavaScript error: `name`, `message`, and the
AWS SDK metadata status code field the orchestrator inspects. -/
structure JSError where
  name : String
  message : String
  httpStatusCode : Option Nat
deriving DecidableEq

/-- Fields of a finding as produced by a probe: the TypeScript type
`Omit<AssetFinding, 'id' | 'accountId' | 'region' | 'createdAt' | 'updatedAt'>`. -/
structure FindingFields where
  resourceId : String
  resourceType : String
  resourceName : Option String
  service : String
  severity : String
  finding : String
  description : String
  remediation : String
deriving DecidableEq

/-- A probe finding after the orchestrator stamps it with its region code
(`{ ...finding, region: region.region }` in scanAccount). -/
structure RegionFinding where
  region : String
  resourceId : String
  resourceType : String
  resourceName : Option String
  service : String
  severity : String
  finding : String
  description : String
  remediation : String
deriving DecidableEq

/-- Region stamping performed in scanAccount before aggregation. -/
def stampRegion (r : String) (f : FindingFields) : RegionFinding :=
  { region := r
    resourceId := f.resourceId
    resourceType := f.resourceType
    resourceName := f.resourceName
    service := f.service
    severity := f.severity
    finding := f.finding
    description := f.description
    remediation := f.remediation }

/-- Row of the aws_accounts table (timestamps omitted: never branched on). -/
structure AWSAccount where
  id : Nat
  accountId : String
  accountName : String
  accessKeyId : String
  secretAccessKey : String
  sessionToken : Option String
deriving DecidableEq

/-- Row of the aws_regions table. -/
structure AWSRegion where
  id : Nat
  accountId : Nat
  region : String
  enabled : Bool
deriving DecidableEq

/-- Row of the asset_findings table. -/
structure StoredFinding where
  id : Nat
  accountId : Nat
  region : String
  resourceId : String
  resourceType : String
  resourceName : Option String
  service : String
  severity : String
  finding : String
  description : String
  remediation : String
deriving DecidableEq

/-- State of the three tables created by DatabaseService.initialize, with the
AUTOINCREMENT counters for region and finding ids made explicit. -/
structure DBState where
  accounts : List AWSAccount
  regions : List AWSRegion
  findings : List StoredFinding
  nextRegionId : Nat
  nextFindingId : Nat
deriving DecidableEq

/-- Result of a database operation: the post-state together with either the
returned value or the thrown error.  The post-state on an error records what
the tables look like after the failed call (SQLite applies each completed
statement unless a transaction rolls it back). -/
inductive DBResult (α : Type) where
  | ok (db : DBState) (val : α)
  | err (db : DBState) (e : JSError)
deriving DecidableEq

/-- Post-state of a database operation, error or not. -/
def DBResult.dbOf {α : Type} : DBResult α → DBState
  | .ok db _ => db
  | .err db _ => db

/-- Whether a database operation threw. -/
def DBResult.isErr {α : Type} : DBResult α → Bool
  | .ok _ _ => false
  | .err _ _ => true

/-- DatabaseService.getAccount: `SELECT ... FROM aws_accounts WHERE id = ?`,
undefined when no row matches. -/
def getAccount (db : DBState) (id : Nat) : Option AWSAccount :=
  db.accounts.find? (fun a => a.id == id)

/-- DatabaseService.getAccounts: `SELECT ... FROM aws_accounts`. -/
def getAccounts (db : DBState) : List AWSAccount :=
  db.accounts

/-- DatabaseService.getEnabledRegions:
`SELECT * FROM aws_regions WHERE account_id = ? AND enabled = 1`. -/
def getEnabledRegions (db : DBState) (accountId : Nat) : List AWSRegion :=
  db.regions.filter (fun r => r.accountId == accountId && r.enabled)

/-- Input of DatabaseService.addRegion:
`Omit<AWSRegion, 'id' | 'createdAt' | 'updatedAt'>`. -/
structure NewRegion where
  accountId : Nat
  region : String
  enabled : Bool
deriving DecidableEq

/-- DatabaseService.addRegion against the schema created by
DatabaseService.initialize: that CREATE TABLE for aws_regions has no
UNIQUE(account_id, region) constraint, so the INSERT always succeeds and
returns lastID. -/
def addRegion (db : DBState) (r : NewRegion) : DBResult Nat :=
  .ok { db with
          regions := db.regions ++
            [{ id := db.nextRegionId
               accountId := r.accountId
               region := r.region
               enabled := r.enabled }]
          nextRegionId := db.nextRegionId + 1 }
      db.nextRegionId

/-- Error raised by SQLite on a constraint violation. -/
def constraintError (msg : String) : JSError :=
  { name := "SQLITE_CONSTRAINT", message := msg, httpStatusCode := none }

/-- The same INSERT run against the aws_regions table as created by
initializeDatabase in src/db/schema.ts, which declares
UNIQUE(account_id, region): a duplicate pair makes the INSERT fail. -/
def addRegionUniqueSchema (db : DBState) (r : NewRegion) : DBResult Nat :=
  if db.regions.any (fun row => row.accountId == r.accountId && row.region == r.region) then
    .err db (constraintError "UNIQUE constraint failed: aws_regions.account_id, aws_regions.region")
  else
    addRegion db r

/-- The CHECK(severity IN ('HIGH', 'MEDIUM', 'LOW')) constraint on the
asset_findings table. -/
def validSeverity (s : String) : Bool :=
  s == "HIGH" || s == "MEDIUM" || s == "LOW"

/-- One `stmt.run` of the prepared INSERT in storeFindingsForAccount: appends
a row with the next AUTOINCREMENT id, or throws on the severity CHECK
constraint. -/
def insertFinding (db : DBState) (accountId : Nat) (f : RegionFinding) :
    Except JSError DBState :=
  if validSeverity f.severity then
    .ok { db with
            findings := db.findings ++
              [{ id := db.nextFindingId
                 accountId := accountId
                 region := f.region
                 resourceId := f.resourceId
                 resourceType := f.resourceType
                 resourceName := f.resourceName
                 service := f.service
                 severity := f.severity
                 finding := f.finding
                 description := f.description
                 remediation := f.remediation }]
            nextFindingId := db.nextFindingId + 1 }
  else
    .error (constraintError "CHECK constraint failed: severity")

/-- DatabaseService.storeFindingsForAccount: a prepared INSERT is run once per
finding, sequentially, with no surrounding transaction.  If a run throws, the
error propagates and the rows inserted by the earlier runs of the same call
remain in the table. -/
def storeFindingsForAccount (db : DBState) (accountId : Nat) :
    List RegionFinding → DBResult Unit
  | [] => .ok db ()
  | f :: fs =>
    match insertFinding db accountId f with
    | .ok db2 => storeFindingsForAccount db2 accountId fs
    | .error e => .err db e

/-- Filters parameter of DatabaseService.getFindings. -/
structure FindingFilters where
  accountId : Option Nat
  region : Option String
  service : Option String
  severity : Option String
deriving DecidableEq

/-- JavaScript truthiness of an optional number (`if (filters.accountId)`):
undefined and 0 are falsy. -/
def optNatTruthy : Option Nat → Bool
  | none => false
  | some n => n != 0

/-- JavaScript truthiness of an optional string (`if (filters.region)` etc.):
undefined and the empty string are falsy. -/
def optStrTruthy : Option String → Bool
  | none => false
  | some s => s != ""

/-- DatabaseService.getFindings: each filter field adds a `field = ?`
condition only when its value is truthy; the conditions are ANDed.  Rows are
returned in table order (the SQL orders by created_at descending; the claims
settled here do not depend on row order). -/
def getFindings (db : DBState) (filters : FindingFilters) : List StoredFinding :=
  db.findings.filter (fun f =>
    (!optNatTruthy filters.accountId || f.accountId == filters.accountId.getD 0) &&
    (!optStrTruthy filters.region || f.region == filters.region.getD "") &&
    (!optStrTruthy filters.service || f.service == filters.service.getD "") &&
    (!optStrTruthy filters.severity || f.severity == filters.severity.getD ""))

/-- Fault injection for DatabaseService.deleteAccount: whether one of the
statements inside the transaction throws, and with which error.  noFault is
the run where all three DELETEs and the COMMIT succeed. -/
inductive DeleteFault where
  | noFault
  | failAfterFindings (e : JSError)
  | failAfterRegions (e : JSError)
  | failBeforeCommit (e : JSError)
deriving DecidableEq

/-- DatabaseService.deleteAccount: BEGIN TRANSACTION; DELETE the account's
findings, then its regions, then the account row; COMMIT.  On any error the
catch block runs ROLLBACK — restoring the pre-transaction state — and
rethrows. -/
def deleteAccount (fault : DeleteFault) (db : DBState) (id : Nat) : DBResult Unit :=
  let s1 : DBState := { db with findings := db.findings.filter (fun f => f.accountId != id) }
  match fault with
  | .failAfterFindings e => .err db e
  | .failAfterRegions e =>
    let _s2 : DBState := { s1 with regions := s1.regions.filter (fun r => r.accountId != id) }
    .err db e
  | .failBeforeCommit e =>
    let s2 : DBState := { s1 with regions := s1.regions.filter (fun r => r.accountId != id) }
    let _s3 : DBState := { s2 with accounts := s2.accounts.filter (fun a => a.id != id) }
    .err db e
  | .noFault =>
    let s2 : DBState := { s1 with regions := s1.regions.filter (fun r => r.accountId != id) }
    let s3 : DBState := { s2 with accounts := s2.accounts.filter (fun a => a.id != id) }
    .ok s3 ()

/-- Result of one probe invocation: the resolved finding list or the thrown
error. -/
abbrev ProbeResult := Except JSError (List FindingFields)

/-- Environment giving, for each probe (one per scanner object constructed by
SecurityScanner), the outcome of `scan(account, region)` as a function of the
account id (the account record, hence its credentials, is determined by the
id through the store) and the region code.  The GuardDuty probe is invoked
twice per region — once as the credential canary and once in the fan-out —
with identical arguments, so both invocations observe the same outcome. -/
structure ProbeEnv where
  iam : Nat → String → ProbeResult
  cloudtrail : Nat → String → ProbeResult
  cloudwatch : Nat → String → ProbeResult
  kms : Nat → String → ProbeResult
  guardduty : Nat → String → ProbeResult
  securityhub : Nat → String → ProbeResult

/-- The `.catch(e => [])` wrapper applied to every probe in the fan-out:
an error is converted to an empty result list. -/
def resultOrEmpty : ProbeResult → List FindingFields
  | .ok fs => fs
  | .error _ => []

/-- Selector for one of the six probes of the Promise.all fan-out. -/
inductive ProbeKind where
  | iam
  | cloudtrail
  | cloudwatch
  | kms
  | guardduty
  | securityhub
deriving DecidableEq

/-- The invocation of the selected probe for an account and region. -/
def probeCall (env : ProbeEnv) : ProbeKind → Nat → String → ProbeResult
  | .iam => env.iam
  | .cloudtrail => env.cloudtrail
  | .cloudwatch => env.cloudwatch
  | .kms => env.kms
  | .guardduty => env.guardduty
  | .securityhub => env.securityhub

/-- The credential-class test in scanAccount:
`error?.name === 'UnrecognizedClientException' || error?.$metadata?.httpStatusCode === 403`. -/
def isCredentialClass (e : JSError) : Bool :=
  e.name == "UnrecognizedClientException" || e.httpStatusCode == some 403

/-- The error scanAccount throws when the canary signals bad credentials:
`new Error('Invalid AWS credentials for account ' + account.accountName)`. -/
def invalidCredsError (accountName : String) : JSError :=
  { name := "Error"
    message := "Invalid AWS credentials for account " ++ accountName
    httpStatusCode := none }

/-- The error scanAccount throws when the account id resolves to no row:
`new Error('Account ' + accountId + ' not found')`. -/
def notFoundError (accountId : Nat) : JSError :=
  { name := "Error"
    message := "Account " ++ toString accountId ++ " not found"
    httpStatusCode := none }

/-- The Promise.all fan-out of one region in scanAccount: the six probes in
source order (IAM, CloudTrail, CloudWatch, KMS, GuardDuty, SecurityHub), each
wrapped with `.catch(e => [])`, flattened in that order (Promise.all keeps
argument order regardless of completion order) and stamped with the region. -/
def regionFanout (env : ProbeEnv) (accountId : Nat) (region : String) :
    List RegionFinding :=
  ((resultOrEmpty (env.iam accountId region)) ++
   (resultOrEmpty (env.cloudtrail accountId region)) ++
   (resultOrEmpty (env.cloudwatch accountId region)) ++
   (resultOrEmpty (env.kms accountId region)) ++
   (resultOrEmpty (env.guardduty accountId region)) ++
   (resultOrEmpty (env.securityhub accountId region))).map (stampRegion region)

/-- Body of one iteration of the region loop in scanAccount: the GuardDuty
canary call first — a credential-class error aborts with the invalid-creds
error, any other canary outcome is discarded — then the parallel fan-out. -/
def scanRegion (env : ProbeEnv) (accountId : Nat) (accountName : String)
    (region : String) : Except JSError (List RegionFinding) :=
  match env.guardduty accountId region with
  | .error e =>
    if isCredentialClass e then .error (invalidCredsError accountName)
    else .ok (regionFanout env accountId region)
  | .ok _ => .ok (regionFanout env accountId region)

/-- The sequential region loop of scanAccount: regions in order, each
region's stamped findings appended to the accumulator; the first error
(re-thrown by the outer catch of the loop body) aborts the whole loop. -/
def scanRegions (env : ProbeEnv) (accountId : Nat) (accountName : String) :
    List String → Except JSError (List RegionFinding)
  | [] => .ok []
  | r :: rs =>
    match scanRegion env accountId accountName r with
    | .error e => .error e
    | .ok fs =>
      match scanRegions env accountId accountName rs with
      | .error e => .error e
      | .ok rest => .ok (fs ++ rest)

/-- SecurityScanner.scanAccount: resolve the account (not-found error if
absent), loop over the enabled regions, then persist the accumulated findings
with storeFindingsForAccount, rethrowing its error; on success return the
accumulated findings. -/
def scanAccount (env : ProbeEnv) (db : DBState) (accountId : Nat) :
    DBResult (List RegionFinding) :=
  match getAccount db accountId with
  | none => .err db (notFoundError accountId)
  | some account =>
    match scanRegions env accountId account.accountName
        ((getEnabledRegions db accountId).map (fun r => r.region)) with
    | .error e => .err db e
    | .ok allFindings =>
      match storeFindingsForAccount db accountId allFindings with
      | .err db2 e => .err db2 e
      | .ok db2 _ => .ok db2 allFindings

/-- One element of the list scanAllAccounts returns: `{accountId, findings}`
on success, `{accountId, error}` (the error's message) on failure. -/
inductive ScanEntry where
  | findings (accountId : Nat) (fs : List RegionFinding)
  | scanError (accountId : Nat) (message : String)
deriving DecidableEq

/-- Account id carried by a scanAllAccounts entry. -/
def ScanEntry.accountOf : ScanEntry → Nat
  | .findings a _ => a
  | .scanError a _ => a

/-- Whether a scanAllAccounts entry is an error entry. -/
def ScanEntry.isError : ScanEntry → Bool
  | .findings _ _ => false
  | .scanError _ _ => true

/-- The account loop of scanAllAccounts: scanAccount per account inside a
try/catch, pushing a findings entry or an error entry; the store state is
threaded through because a failed scan may still have written rows. -/
def scanAccountsList (env : ProbeEnv) (db : DBState) :
    List AWSAccount → DBState × List ScanEntry
  | [] => (db, [])
  | a :: rest =>
    match scanAccount env db a.id with
    | .ok db2 fs =>
      let next := scanAccountsList env db2 rest
      (next.1, .findings a.id fs :: next.2)
    | .err db2 e =>
      let next := scanAccountsList env db2 rest
      (next.1, .scanError a.id e.message :: next.2)

/-- SecurityScanner.scanAllAccounts: getAccounts, then the per-account loop.
The function always returns an entry list — it has no error outcome. -/
def scanAllAccounts (env : ProbeEnv) (db : DBState) : DBState × List ScanEntry :=
  scanAccountsList env db (getAccounts db)

/-- Substring test on character lists, used to model
`error.message.includes(...)`. -/
def charsContain (pat : List Char) : List Char → Bool
  | [] => pat.isPrefixOf ([] : List Char)
  | c :: rest => pat.isPrefixOf (c :: rest) || charsContain pat rest

/-- JavaScript `s.includes(pat)`. -/
def strIncludes (s pat : String) : Bool :=
  charsContain pat.toList s.toList

/-- JavaScript `value || fallback` on an optional string: undefined and the
empty string fall through to the fallback. -/
def jsOrStr (v : Option String) (fallback : String) : String :=
  match v with
  | none => fallback
  | some s => if s == "" then fallback else s

/-- One GuardDuty finding as returned by GetFindingsCommand, reduced to the
fields GuardDutyScanner.scan reads (Resource?.Id, Resource?.Type, Title,
Severity, Type, Description).  The numeric severity score is modelled at
integer granularity; only the thresholds 4 and 7 are compared. -/
structure GDFindingDetail where
  resourceIdOpt : Option String
  resourceTypeOpt : Option String
  title : Option String
  severityScore : Option Nat
  findingType : Option String
  descriptionOpt : Option String
deriving DecidableEq

/-- Outcomes of the three GuardDuty API calls the scan makes, in call order:
ListDetectorsCommand, ListFindingsCommand, GetFindingsCommand. -/
structure GDEnv where
  listDetectors : Except JSError (List String)
  listFindingIds : Except JSError (List String)
  getFindingDetails : Except JSError (List GDFindingDetail)

/-- The finding GuardDutyScanner.scan emits when no detector ids come back. -/
def gdNotEnabledFinding : FindingFields :=
  { resourceId := "account"
    resourceType := "GUARDDUTY_ACCOUNT"
    resourceName := some "Account GuardDuty"
    service := "GuardDuty"
    severity := "HIGH"
    finding := "GuardDuty Not Enabled"
    description := "GuardDuty is not enabled in this region."
    remediation := "Enable GuardDuty to detect potential security threats and unauthorized behavior." }

/-- Mapping of one GuardDuty finding detail to the stored finding shape, as
in the loop of GuardDutyScanner.scan (`resource?.Id || 'unknown'` etc.; the
severity ternary uses JavaScript truthiness of the score, so a score of 0 or
an absent score maps to LOW). -/
def gdMapFinding (f : GDFindingDetail) : FindingFields :=
  { resourceId := jsOrStr f.resourceIdOpt "unknown"
    resourceType := jsOrStr f.resourceTypeOpt "GUARDDUTY_FINDING"
    resourceName := some (jsOrStr f.title "Unknown Finding")
    service := "GuardDuty"
    severity :=
      match f.severityScore with
      | some s => if s != 0 && s >= 7 then "HIGH" else if s != 0 && s >= 4 then "MEDIUM" else "LOW"
      | none => "LOW"
    finding := jsOrStr f.findingType "Unknown Finding Type"
    description := jsOrStr f.descriptionOpt "No description available"
    remediation := "Review GuardDuty finding details and take appropriate action." }

/-- The catch block of GuardDutyScanner.scan: credential-class errors (name
UnrecognizedClientException or HTTP 403) are rethrown verbatim; a message
containing "credentials" is rewrapped as an AWS-credentials error; a message
containing "AccessDenied" is rewrapped as an access-denied error; every other
error is rethrown verbatim.  Every branch throws — none returns findings. -/
def guardDutyCatch (e : JSError) : JSError :=
  if e.name == "UnrecognizedClientException" || e.httpStatusCode == some 403 then e
  else if strIncludes e.message "credentials" then
    { name := "Error"
      message := "AWS credentials error: " ++ e.message
      httpStatusCode := none }
  else if strIncludes e.message "AccessDenied" then
    { name := "Error"
      message := "Access denied to GuardDuty. Please check IAM permissions."
      httpStatusCode := none }
  else e

/-- GuardDutyScanner.scan: throw on missing credentials; list detectors (none
⇒ the Not Enabled finding); list finding ids for the first detector; when ids
exist, fetch the details and map them.  Any error from a client call goes
through the catch block and is rethrown (see guardDutyCatch). -/
def guardDutyScan (accessKeyId secretAccessKey : String) (env : GDEnv) :
    Except JSError (List FindingFields) :=
  if accessKeyId == "" || secretAccessKey == "" then
    .error { name := "Error", message := "Missing AWS credentials", httpStatusCode := none }
  else
    match env.listDetectors with
    | .error e => .error (guardDutyCatch e)
    | .ok [] => .ok [gdNotEnabledFinding]
    | .ok (_detectorId :: _) =>
      match env.listFindingIds with
      | .error e => .error (guardDutyCatch e)
      | .ok ids =>
        if ids.length > 0 then
          match env.getFindingDetails with
          | .error e => .error (guardDutyCatch e)
          | .ok details => .ok (details.map gdMapFinding)
        else
          .ok []

/-- Whether a GuardDuty scan run over this input hits a failure: missing
credentials, or an error from whichever client calls are reached on the
execution path. -/
def gdRunFails (accessKeyId secretAccessKey : String) (env : GDEnv) : Bool :=
  accessKeyId == "" || secretAccessKey == "" ||
  (match env.listDetectors with
   | .error _ => true
   | .ok [] => false
   | .ok (_ :: _) =>
     match env.listFindingIds with
     | .error _ => true
     | .ok ids =>
       if ids.length > 0 then
         match env.getFindingDetails with
         | .error _ => true
         | .ok _ => false
       else false)

/-- One IAM user as read by IAMScanner.scan (UserId, UserName, and the
truthiness-tested PasswordLastUsed). -/
structure IAMUser where
  userId : String
  userName : String
  passwordLastUsed : Option String
deriving DecidableEq

/-- Outcomes of the IAM API calls: GetAccountSummaryCommand (reduced to the
truthiness of SummaryMap?.AccountMFAEnabled), ListUsersCommand, and one
ListAccessKeysCommand per user name (reduced to the key count). -/
structure IAMEnv where
  accountSummaryMFA : Except JSError Bool
  listUsers : Except JSError (List IAMUser)
  listAccessKeys : String → Except JSError Nat

/-- The root-MFA finding of IAMScanner.scan. -/
def iamRootMfaFinding : FindingFields :=
  { resourceId := "account"
    resourceType := "IAM_ACCOUNT"
    resourceName := some "Root Account"
    service := "IAM"
    severity := "HIGH"
    finding := "Root Account MFA Not Enabled"
    description := "The root account does not have Multi-Factor Authentication (MFA) enabled."
    remediation := "Enable MFA for the root account to enhance security." }

/-- The multiple-access-keys finding of IAMScanner.scan for one user. -/
def iamMultiKeyFinding (u : IAMUser) : FindingFields :=
  { resourceId := u.userId
    resourceType := "IAM_USER"
    resourceName := some u.userName
    service := "IAM"
    severity := "MEDIUM"
    finding := "Multiple Access Keys"
    description := "User " ++ u.userName ++ " has multiple active access keys."
    remediation := "Review and remove unnecessary access keys. Each user should typically have at most one active access key." }

/-- The inactive-user finding of IAMScanner.scan for one user. -/
def iamInactiveUserFinding (u : IAMUser) : FindingFields :=
  { resourceId := u.userId
    resourceType := "IAM_USER"
    resourceName := some u.userName
    service := "IAM"
    severity := "LOW"
    finding := "Inactive User"
    description := "User " ++ u.userName ++ " has never signed in or has not signed in recently."
    remediation := "Review and remove inactive users to maintain good security hygiene." }

/-- The per-user loop of IAMScanner.scan.  An error from ListAccessKeys for
any user escapes the loop into the scan's top-level catch, which swallows it,
so the findings accumulated up to that user are what the scan returns. -/
def iamUserLoop (env : IAMEnv) : List IAMUser → List FindingFields → List FindingFields
  | [], acc => acc
  | u :: us, acc =>
    match env.listAccessKeys u.userName with
    | .error _ => acc
    | .ok keyCount =>
      let acc2 := acc ++ (if keyCount > 1 then [iamMultiKeyFinding u] else [])
      let acc3 := acc2 ++ (if optStrTruthy u.passwordLastUsed then [] else [iamInactiveUserFinding u])
      iamUserLoop env us acc3

/-- IAMScanner.scan: account summary (MFA check), then the user loop.  The
whole body sits in a try whose catch only logs, so the function always
returns the findings collected before any error — it never throws. -/
def iamScan (env : IAMEnv) : List FindingFields :=
  match env.accountSummaryMFA with
  | .error _ => []
  | .ok mfaEnabled =>
    let initial := if mfaEnabled then [] else [iamRootMfaFinding]
    match env.listUsers with
    | .error _ => initial
    | .ok users => iamUserLoop env users initial

/-- Whether the canary GuardDuty call for a region fails with a
credential-class error — the condition under which scanAccount aborts. -/
def canaryCredFails (env : ProbeEnv) (accountId : Nat) (region : String) : Bool :=
  match env.guardduty accountId region with
  | .error e => isCredentialClass e
  | .ok _ => false

/-- Iterated successful insertFinding: the rows storeFindingsForAccount has
committed after inserting a prefix of all-valid findings. -/
def insertAll (db : DBState) (accountId : Nat) : List RegionFinding → DBState
  | [] => db
  | f :: fs =>
    match insertFinding db accountId f with
    | .ok db2 => insertAll db2 accountId fs
    | .error _ => db

/-- Example account row used by the concrete witnesses. -/
def exAccount : AWSAccount :=
  { id := 1
    accountId := "111122223333"
    accountName := "Prod"
    accessKeyId := "AKIAEXAMPLE"
    secretAccessKey := "SECRET"
    sessionToken := none }

/-- Store with one account and no regions. -/
def oneAccountDb : DBState :=
  { accounts := [exAccount]
    regions := []
    findings := []
    nextRegionId := 1
    nextFindingId := 1 }

/-- Enabled us-east-1 row for the example account. -/
def exRegionRow : AWSRegion :=
  { id := 1, accountId := 1, region := "us-east-1", enabled := true }

/-- Store with one account and one enabled region. -/
def oneRegionDb : DBState :=
  { accounts := [exAccount]
    regions := [exRegionRow]
    findings := []
    nextRegionId := 2
    nextFindingId := 1 }

/-- A well-formed finding (valid severity) used by the concrete witnesses. -/
def exGoodFinding : RegionFinding :=
  { region := "us-east-1"
    resourceId := "account"
    resourceType := "IAM_ACCOUNT"
    resourceName := some "Root Account"
    service := "IAM"
    severity := "HIGH"
    finding := "Root Account MFA Not Enabled"
    description := "The root account does not have MFA enabled."
    remediation := "Enable MFA." }

/-- A finding whose severity violates the CHECK constraint. -/
def exBadFinding : RegionFinding :=
  { region := "us-east-1"
    resourceId := "i-123"
    resourceType := "EC2_INSTANCE"
    resourceName := none
    service := "EC2"
    severity := "CRITICAL"
    finding := "Bad severity"
    description := "Severity outside the CHECK list."
    remediation := "None." }

/-- The probe-fields shape of exBadFinding, as a probe would emit it. -/
def exBadFields : FindingFields :=
  { resourceId := "i-123"
    resourceType := "EC2_INSTANCE"
    resourceName := none
    service := "EC2"
    severity := "CRITICAL"
    finding := "Bad severity"
    description := "Severity outside the CHECK list."
    remediation := "None." }

/-- A well-formed probe finding used by the concrete witnesses. -/
def exProbeFields : FindingFields :=
  { resourceId := "trail-1"
    resourceType := "CLOUDTRAIL_TRAIL"
    resourceName := some "main"
    service := "CloudTrail"
    severity := "MEDIUM"
    finding := "Log validation disabled"
    description := "Log file validation is disabled."
    remediation := "Enable log file validation." }

/-- Environment in which every probe succeeds with no findings. -/
def trivialProbeEnv : ProbeEnv :=
  { iam := fun _ _ => .ok []
    cloudtrail := fun _ _ => .ok []
    cloudwatch := fun _ _ => .ok []
    kms := fun _ _ => .ok []
    guardduty := fun _ _ => .ok []
    securityhub := fun _ _ => .ok [] }

/-- A credential-class error: HTTP 403 from the AWS SDK. -/
def cred403 : JSError :=
  { name := "AccessDeniedException", message := "Forbidden", httpStatusCode := some 403 }

/-- A non-credential probe error. -/
def plainBoom : JSError :=
  { name := "Error", message := "boom", httpStatusCode := none }

/-- Environment where the GuardDuty probe always fails with a 403 while
every other probe would succeed with a finding. -/
def credFailEnv : ProbeEnv :=
  { iam := fun _ _ => .ok [exProbeFields]
    cloudtrail := fun _ _ => .ok [exProbeFields]
    cloudwatch := fun _ _ => .ok []
    kms := fun _ _ => .ok []
    guardduty := fun _ _ => .error cred403
    securityhub := fun _ _ => .ok [] }

/-- Environment where the IAM probe fails with an arbitrary error and the
GuardDuty canary fails with a non-credential error; CloudTrail succeeds with
a finding. -/
def iamFailEnv : ProbeEnv :=
  { iam := fun _ _ => .error plainBoom
    cloudtrail := fun _ _ => .ok [exProbeFields]
    cloudwatch := fun _ _ => .ok []
    kms := fun _ _ => .ok []
    guardduty := fun _ _ => .error plainBoom
    securityhub := fun _ _ => .ok [] }

/-- Environment where the IAM probe emits a finding with an invalid severity
and everything else succeeds empty. -/
def badSeverityEnv : ProbeEnv :=
  { iam := fun _ _ => .ok [exBadFields]
    cloudtrail := fun _ _ => .ok []
    cloudwatch := fun _ _ => .ok []
    kms := fun _ _ => .ok []
    guardduty := fun _ _ => .ok []
    securityhub := fun _ _ => .ok [] }

/-- Store with two accounts — the first with an enabled region, the second
with none — used by the scanAllAccounts witness. -/
def twoAccountDb : DBState :=
  { accounts := [exAccount,
      { id := 2
        accountId := "444455556666"
        accountName := "Dev"
        accessKeyId := "AKIAOTHER"
        secretAccessKey := "SECRET2"
        sessionToken := none }]
    regions := [exRegionRow]
    findings := []
    nextRegionId := 2
    nextFindingId := 1 }

/-- GuardDuty call environment in which the detector listing fails. -/
def gdFailEnv : GDEnv :=
  { listDetectors := .error plainBoom
    listFindingIds := .ok []
    getFindingDetails := .ok [] }

/-- IAM call environment where MFA is off and the user listing fails. -/
def iamErrEnv : IAMEnv :=
  { accountSummaryMFA := .ok false
    listUsers := .error plainBoom
    listAccessKeys := fun _ => .ok 0 }

lemma scanRegion_of_not_credFail (env : ProbeEnv) (aid : Nat) (name region : String)
    (h : canaryCredFails env aid region = false) :
    scanRegion env aid name region = .ok (regionFanout env aid region) := by
  unfold canaryCredFails at h
  unfold scanRegion
  cases hr : env.guardduty aid region with
  | error e2 => rw [hr] at h; simp at h; simp [h]
  | ok l => simp

lemma scanRegions_cred_abort (env : ProbeEnv) (aid : Nat) (name : String)
    (rs : List String)
    (h : ∃ s ∈ rs, ∃ e, env.guardduty aid s = .error e ∧ isCredentialClass e = true) :
    scanRegions env aid name rs = .error (invalidCredsError name) := by
  induction rs with
  | nil => simp at h
  | cons r rs ih =>
    obtain ⟨s, hs, e, he, hc⟩ := h
    cases hr : env.guardduty aid r with
    | error e2 =>
      by_cases hce : isCredentialClass e2 = true
      · simp [scanRegions, scanRegion, hr, hce]
      · rw [Bool.not_eq_true] at hce
        have hsr : s ∈ rs := by
          rcases List.mem_cons.mp hs with h1 | h1
          · subst h1; rw [he] at hr
            injection hr with h2
            subst h2
            rw [hc] at hce
            exact absurd hce (by simp)
          · exact h1
        have hrec := ih ⟨s, hsr, e, he, hc⟩
        simp [scanRegions, scanRegion, hr, hce, hrec]
    | ok l =>
      have hsr : s ∈ rs := by
        rcases List.mem_cons.mp hs with h1 | h1
        · subst h1; rw [he] at hr; exact absurd hr (by simp)
        · exact h1
      have hrec := ih ⟨s, hsr, e, he, hc⟩
      simp [scanRegions, scanRegion, hr, hrec]

lemma scanAccountsList_ids (env : ProbeEnv) (accts : List AWSAccount) :
    ∀ db : DBState,
      ((scanAccountsList env db accts).2.map ScanEntry.accountOf) =
        accts.map (fun a => a.id) := by
  induction accts with
  | nil => intro db; rfl
  | cons a rest ih =>
    intro db
    unfold scanAccountsList
    cases h : scanAccount env db a.id with
    | ok db2 fs => simp [ScanEntry.accountOf, ih db2]
    | err db2 e => simp [ScanEntry.accountOf, ih db2]

/-- C10: in getFindings a falsy filter value — accountId 0 or an empty-string
region, service, or severity — adds no WHERE condition, so the query result
is the same as with the field omitted; consequently no finding is ever
selected by filtering on accountId 0 or an empty string. -/
theorem getFindings_falsy_filter_ignored :
    ∀ (db : DBState) (af : Option Nat) (rf sf vf : Option String),
      getFindings db { accountId := some 0, region := rf, service := sf, severity := vf } =
        getFindings db { accountId := none, region := rf, service := sf, severity := vf }
      ∧ getFindings db { accountId := af, region := some "", service := sf, severity := vf } =
        getFindings db { accountId := af, region := none, service := sf, severity := vf }
      ∧ getFindings db { accountId := af, region := rf, service := some "", severity := vf } =
        getFindings db { accountId := af, region := rf, service := none, severity := vf }
      ∧ getFindings db { accountId := af, region := rf, service := sf, severity := some "" } =
        getFindings db { accountId := af, region := rf, service := sf, severity := none } := by
  intro db af rf sf vf
  refine ⟨?_, ?_, ?_, ?_⟩ <;> simp [getFindings, optNatTruthy, optStrTruthy]

/-- C9: for an existing account with zero enabled regions, scanAccount
succeeds with an empty finding list and the store is left unchanged — the
only write is storeFindingsForAccount on the empty list, which inserts no
rows. -/
theorem scanAccount_no_enabled_regions (env : ProbeEnv) (db : DBState) (aid : Nat)
    (account : AWSAccount)
    (hacct : getAccount db aid = some account)
    (hregions : getEnabledRegions db aid = []) :
    scanAccount env db aid = .ok db [] := by
  unfold scanAccount
  rw [hacct, hregions]
  rfl

/-- Witness for C9 at a one-account store with no regions. -/
theorem scanAccount_no_enabled_regions_witness :
    getAccount oneAccountDb 1 = some exAccount
    ∧ getEnabledRegions oneAccountDb 1 = []
    ∧ scanAccount trivialProbeEnv oneAccountDb 1 = .ok oneAccountDb [] :=
  ⟨rfl, rfl, scanAccount_no_enabled_regions trivialProbeEnv oneAccountDb 1 exAccount rfl rfl⟩

/-- C1: if for some enabled region the GuardDuty canary call throws a
credential-class error (name UnrecognizedClientException or HTTP 403),
scanAccount terminates with the invalid-credentials error and the store is
returned unchanged — storeFindingsForAccount is never invoked for the
account, regardless of what the other regions or probes would have
returned. -/
theorem scanAccount_credential_abort (env : ProbeEnv) (db : DBState) (aid : Nat)
    (account : AWSAccount)
    (hacct : getAccount db aid = some account)
    (h : ∃ r ∈ getEnabledRegions db aid,
           ∃ e, env.guardduty aid r.region = .error e ∧ isCredentialClass e = true) :
    scanAccount env db aid = .err db (invalidCredsError account.accountName) := by
  obtain ⟨r, hr, e, he, hc⟩ := h
  have habort := scanRegions_cred_abort env aid account.accountName
    ((getEnabledRegions db aid).map (fun x => x.region))
    ⟨r.region, List.mem_map_of_mem _ hr, e, he, hc⟩
  simp [scanAccount, hacct, habort]

/-- Witness for C1: one enabled region, the GuardDuty probe failing with 403
while other probes would return findings; the scan aborts and the store is
untouched. -/
theorem scanAccount_credential_abort_witness :
    getAccount oneRegionDb 1 = some exAccount
    ∧ (∃ r ∈ getEnabledRegions oneRegionDb 1,
         ∃ e, credFailEnv.guardduty 1 r.region = .error e ∧ isCredentialClass e = true)
    ∧ scanAccount credFailEnv oneRegionDb 1 = .err oneRegionDb (invalidCredsError "Prod") :=
  ⟨rfl,
   ⟨exRegionRow, by decide, cred403, rfl, rfl⟩,
   scanAccount_credential_abort credFailEnv oneRegionDb 1 exAccount rfl
     ⟨exRegionRow, by decide, cred403, rfl, rfl⟩⟩

/-- C3: when any one of the six fan-out probes fails with an arbitrary
error while the canary does not signal a credential failure, the region
still succeeds: the failed probe contributes an empty list, every finding of
every other probe is still included (region-stamped) in the region result,
and the region loop proceeds to the subsequent regions. -/
theorem probe_failure_isolated (env : ProbeEnv) (aid : Nat) (name region : String)
    (p : ProbeKind) (e : JSError) (rest : List String)
    (hfail : probeCall env p aid region = .error e)
    (hcanary : canaryCredFails env aid region = false) :
    scanRegion env aid name region = .ok (regionFanout env aid region)
    ∧ resultOrEmpty (probeCall env p aid region) = []
    ∧ (∀ (q : ProbeKind) (f : FindingFields), q ≠ p →
         f ∈ resultOrEmpty (probeCall env q aid region) →
         stampRegion region f ∈ regionFanout env aid region)
    ∧ (∀ res, scanRegions env aid name rest = .ok res →
         scanRegions env aid name (region :: rest) = .ok (regionFanout env aid region ++ res)) := by
  have hreg := scanRegion_of_not_credFail env aid name region hcanary
  refine ⟨hreg, by rw [hfail]; rfl, ?_, ?_⟩
  · intro q f _ hf
    cases q <;>
      (simp only [probeCall] at hf
       unfold regionFanout
       refine List.mem_map_of_mem _ ?_
       simp only [List.mem_append]
       tauto)
  · intro res hres
    simp [scanRegions, hreg, hres]

/-- Witness for C3: the IAM probe fails with a plain error, the canary fails
with the same non-credential error, CloudTrail has a finding; the region
result still carries the stamped CloudTrail finding. -/
theorem probe_failure_isolated_witness :
    probeCall iamFailEnv ProbeKind.iam 1 "us-east-1" = .error plainBoom
    ∧ canaryCredFails iamFailEnv 1 "us-east-1" = false
    ∧ scanRegion iamFailEnv 1 "Prod" "us-east-1" = .ok (regionFanout iamFailEnv 1 "us-east-1")
    ∧ stampRegion "us-east-1" exProbeFields ∈ regionFanout iamFailEnv 1 "us-east-1" :=
  ⟨rfl, rfl,
   (probe_failure_isolated iamFailEnv 1 "Prod" "us-east-1" ProbeKind.iam plainBoom []
     rfl rfl).1,
   (probe_failure_isolated iamFailEnv 1 "Prod" "us-east-1" ProbeKind.iam plainBoom []
     rfl rfl).2.2.1 ProbeKind.cloudtrail exProbeFields (by decide) (by decide)⟩

/-- C7: an error of the GuardDuty canary call that is not credential-class is
swallowed: the region executes the full probe fan-out and succeeds, and the
region loop proceeds — the canary failure alone never fails the region or
the account scan. -/
theorem canary_noncred_error_swallowed (env : ProbeEnv) (aid : Nat)
    (name region : String) (e : JSError) (rest : List String)
    (hgd : env.guardduty aid region = .error e)
    (hnc : isCredentialClass e = false) :
    scanRegion env aid name region = .ok (regionFanout env aid region)
    ∧ (∀ res, scanRegions env aid name rest = .ok res →
         scanRegions env aid name (region :: rest) = .ok (regionFanout env aid region ++ res)) := by
  have hc : canaryCredFails env aid region = false := by
    unfold canaryCredFails
    rw [hgd]
    exact hnc
  have hreg := scanRegion_of_not_credFail env aid name region hc
  exact ⟨hreg, fun res hres => by simp [scanRegions, hreg, hres]⟩

/-- Witness for C7: the canary fails with a plain non-credential error and
the region still yields the fan-out result. -/
theorem canary_noncred_error_swallowed_witness :
    iamFailEnv.guardduty 1 "us-east-1" = .error plainBoom
    ∧ isCredentialClass plainBoom = false
    ∧ scanRegion iamFailEnv 1 "Prod" "us-east-1" = .ok (regionFanout iamFailEnv 1 "us-east-1") :=
  ⟨rfl, rfl,
   (canary_noncred_error_swallowed iamFailEnv 1 "Prod" "us-east-1" plainBoom [] rfl rfl).1⟩

/-- Second account used by the scanAllAccounts witness. -/
def devAccount : AWSAccount :=
  { id := 2
    accountId := "444455556666"
    accountName := "Dev"
    accessKeyId := "AKIAOTHER"
    secretAccessKey := "SECRET2"
    sessionToken := none }

/-- C4: scanAllAccounts produces exactly one entry per stored account, in
iteration order, each carrying that account's id; a failing scanAccount is
captured as an error entry for that account and scanning continues with the
remaining accounts on the threaded store state, while a succeeding one is
captured as a findings entry — the batch result is a plain list, never a
failure. -/
theorem scanAllAccounts_entry_per_account :
    (∀ (env : ProbeEnv) (db : DBState),
      ((scanAllAccounts env db).2.map ScanEntry.accountOf) =
        (getAccounts db).map (fun a => a.id))
    ∧ (∀ (env : ProbeEnv) (db : DBState) (a : AWSAccount) (rest : List AWSAccount)
         (db2 : DBState) (e : JSError),
        scanAccount env db a.id = .err db2 e →
        (scanAccountsList env db (a :: rest)).2 =
          .scanError a.id e.message :: (scanAccountsList env db2 rest).2)
    ∧ (∀ (env : ProbeEnv) (db : DBState) (a : AWSAccount) (rest : List AWSAccount)
         (db2 : DBState) (fs : List RegionFinding),
        scanAccount env db a.id = .ok db2 fs →
        (scanAccountsList env db (a :: rest)).2 =
          .findings a.id fs :: (scanAccountsList env db2 rest).2) := by
  refine ⟨?_, ?_, ?_⟩
  · intro env db
    exact scanAccountsList_ids env (getAccounts db) db
  · intro env db a rest db2 e h
    simp [scanAccountsList, h]
  · intro env db a rest db2 fs h
    simp [scanAccountsList, h]

/-- Witness for C4: two accounts, the first failing its scan on invalid
credentials, the second scanned anyway (no enabled regions, empty result);
the batch returns one entry per account in order. -/
theorem scanAllAccounts_entry_per_account_witness :
    ((scanAllAccounts credFailEnv twoAccountDb).2.map ScanEntry.accountOf =
      (getAccounts twoAccountDb).map (fun a => a.id))
    ∧ ((scanAccountsList credFailEnv twoAccountDb (exAccount :: [devAccount])).2 =
        .scanError 1 (invalidCredsError "Prod").message ::
          (scanAccountsList credFailEnv twoAccountDb [devAccount]).2)
    ∧ ((scanAccountsList trivialProbeEnv oneAccountDb [exAccount]).2 =
        .findings 1 [] :: (scanAccountsList trivialProbeEnv oneAccountDb []).2) :=
  ⟨scanAllAccounts_entry_per_account.1 credFailEnv twoAccountDb,
   scanAllAccounts_entry_per_account.2.1 credFailEnv twoAccountDb exAccount [devAccount]
     twoAccountDb (invalidCredsError "Prod") (by decide),
   scanAllAccounts_entry_per_account.2.2 trivialProbeEnv oneAccountDb exAccount []
     oneAccountDb [] (by decide)⟩

/-- C5: deleteAccount is an atomic cascade.  With no fault, the result state
has the account's findings, regions, and account row all removed and a
findings query for that account id returns the empty list (account ids of
real rows are nonzero, as the id column is AUTOINCREMENT starting at 1);
with a fault injected at any of the three points inside the transaction, the
ROLLBACK leaves all three tables exactly in their pre-delete state. -/
theorem deleteAccount_cascade_atomic (db : DBState) (id : Nat) :
    (id ≠ 0 →
      ∃ db2, deleteAccount .noFault db id = .ok db2 ()
        ∧ db2.findings = db.findings.filter (fun f => f.accountId != id)
        ∧ db2.regions = db.regions.filter (fun r => r.accountId != id)
        ∧ db2.accounts = db.accounts.filter (fun a => a.id != id)
        ∧ getFindings db2
            { accountId := some id, region := none, service := none, severity := none } = [])
    ∧ (∀ e : JSError,
        deleteAccount (.failAfterFindings e) db id = .err db e
        ∧ deleteAccount (.failAfterRegions e) db id = .err db e
        ∧ deleteAccount (.failBeforeCommit e) db id = .err db e) := by
  constructor
  · intro hid
    refine ⟨_, rfl, rfl, rfl, rfl, ?_⟩
    have hid2 : (id != 0) = true := by simpa using hid
    simp [getFindings, optNatTruthy, optStrTruthy, hid2, deleteAccount, List.filter_filter]
  · intro e
    exact ⟨rfl, rfl, rfl⟩

/-- A stored finding row belonging to the example account. -/
def exStoredFinding : StoredFinding :=
  { id := 1
    accountId := 1
    region := "us-east-1"
    resourceId := "account"
    resourceType := "IAM_ACCOUNT"
    resourceName := some "Root Account"
    service := "IAM"
    severity := "HIGH"
    finding := "Root Account MFA Not Enabled"
    description := "The root account does not have MFA enabled."
    remediation := "Enable MFA." }

/-- Store holding two accounts, a region and a finding of account 1, for the
delete-cascade witness. -/
def exDeleteDb : DBState :=
  { accounts := [exAccount, devAccount]
    regions := [exRegionRow]
    findings := [exStoredFinding]
    nextRegionId := 2
    nextFindingId := 2 }

/-- Witness for C5 on a concrete populated store. -/
theorem deleteAccount_cascade_atomic_witness :
    (∃ db2, deleteAccount .noFault exDeleteDb 1 = .ok db2 ()
      ∧ db2.findings = exDeleteDb.findings.filter (fun f => f.accountId != 1)
      ∧ db2.regions = exDeleteDb.regions.filter (fun r => r.accountId != 1)
      ∧ db2.accounts = exDeleteDb.accounts.filter (fun a => a.id != 1)
      ∧ getFindings db2
          { accountId := some 1, region := none, service := none, severity := none } = [])
    ∧ deleteAccount (.failAfterFindings plainBoom) exDeleteDb 1 = .err exDeleteDb plainBoom
    ∧ deleteAccount (.failBeforeCommit plainBoom) exDeleteDb 1 = .err exDeleteDb plainBoom :=
  ⟨(deleteAccount_cascade_atomic exDeleteDb 1).1 (by decide),
   ((deleteAccount_cascade_atomic exDeleteDb 1).2 plainBoom).1,
   ((deleteAccount_cascade_atomic exDeleteDb 1).2 plainBoom).2.2⟩

/-- Counterexample to C2 as stated: storeFindingsForAccount on a valid
finding followed by one violating the severity CHECK constraint fails, yet
the first finding of the call is left recorded in the store — the bulk
persistence step is not all-or-nothing. -/
theorem storeFindings_not_all_or_nothing :
    (storeFindingsForAccount oneAccountDb 1 [exGoodFinding, exBadFinding]).isErr = true
    ∧ ((storeFindingsForAccount oneAccountDb 1 [exGoodFinding, exBadFinding]).dbOf.findings.length = 1)
    ∧ oneAccountDb.findings.length = 0 := by
  refine ⟨rfl, rfl, rfl⟩

/-- C2 as amended: storeFindingsForAccount inserts the findings one at a
time with no transaction; if an insert fails, the findings inserted earlier
in the same call remain recorded (partial persistence), and scanAccount as a
whole fails, propagating the persistence error and its partial state. -/
theorem storeFindings_partial_persistence :
    (∀ (db : DBState) (aid : Nat) (pre : List RegionFinding) (bad : RegionFinding)
       (rest : List RegionFinding),
      (∀ f ∈ pre, validSeverity f.severity = true) →
      validSeverity bad.severity = false →
      storeFindingsForAccount db aid (pre ++ bad :: rest) =
        .err (insertAll db aid pre) (constraintError "CHECK constraint failed: severity"))
    ∧ (∀ (env : ProbeEnv) (db : DBState) (aid : Nat) (account : AWSAccount)
         (fs : List RegionFinding) (db2 : DBState) (e : JSError),
        getAccount db aid = some account →
        scanRegions env aid account.accountName
          ((getEnabledRegions db aid).map (fun r => r.region)) = .ok fs →
        storeFindingsForAccount db aid fs = .err db2 e →
        scanAccount env db aid = .err db2 e) := by
  constructor
  · intro db aid pre
    induction pre generalizing db with
    | nil =>
      intro bad rest _ hbad
      simp [storeFindingsForAccount, insertFinding, hbad, insertAll]
    | cons f pre ih =>
      intro bad rest hvalid hbad
      have hf : validSeverity f.severity = true := hvalid f (List.mem_cons_self f pre)
      have hrest : ∀ g ∈ pre, validSeverity g.severity = true :=
        fun g hg => hvalid g (List.mem_cons_of_mem f hg)
      simp only [List.cons_append, storeFindingsForAccount, insertFinding, hf, if_true,
        insertAll]
      exact ih _ bad rest hrest hbad
  · intro env db aid account fs db2 e hacct hregions hstore
    simp [scanAccount, hacct, hregions, hstore]

/-- Witness for the amended C2: a concrete two-element list persists its
first element despite the failed call, and a scan whose only probe finding
has an invalid severity fails as a whole with the constraint error. -/
theorem storeFindings_partial_persistence_witness :
    (storeFindingsForAccount oneAccountDb 1 ([exGoodFinding] ++ exBadFinding :: []) =
      .err (insertAll oneAccountDb 1 [exGoodFinding])
        (constraintError "CHECK constraint failed: severity"))
    ∧ scanAccount badSeverityEnv oneRegionDb 1 =
        .err oneRegionDb (constraintError "CHECK constraint failed: severity") :=
  ⟨storeFindings_partial_persistence.1 oneAccountDb 1 [exGoodFinding] exBadFinding []
     (by decide) (by decide),
   storeFindings_partial_persistence.2 badSeverityEnv oneRegionDb 1 exAccount
     [stampRegion "us-east-1" exBadFields] oneRegionDb
     (constraintError "CHECK constraint failed: severity") rfl rfl rfl⟩

/-- New-region input with the same (accountId, region) pair twice. -/
def exNewRegion : NewRegion :=
  { accountId := 1, region := "us-east-1", enabled := true }

/-- C6: against the schema actually created at startup
(DatabaseService.initialize), addRegion with an (accountId, region) pair that
already exists succeeds and creates a second row — the claimed uniqueness
failure does not happen; the same INSERT against the aws_regions table as
declared by initializeDatabase in src/db/schema.ts (UNIQUE(account_id,
region)), which is never invoked at runtime, does fail. -/
theorem addRegion_duplicate_pair_succeeds :
    (addRegion (addRegion oneAccountDb exNewRegion).dbOf exNewRegion).isErr = false
    ∧ (((addRegion (addRegion oneAccountDb exNewRegion).dbOf exNewRegion).dbOf.regions.filter
        (fun r => r.accountId == 1 && r.region == "us-east-1")).length = 2)
    ∧ (addRegionUniqueSchema (addRegion oneAccountDb exNewRegion).dbOf exNewRegion).isErr = true := by
  refine ⟨rfl, rfl, rfl⟩

/-- C8: whenever a GuardDuty scan run fails — missing credentials or an
error from any AWS call reached on its execution path — guardDutyScan
propagates an error to the caller (possibly re-wrapped by its catch block);
it never swallows the failure into a returned finding list.  By contrast the
IAM probe absorbs an error (here from ListUsers) and returns the findings
collected so far. -/
theorem guardduty_never_swallows :
    (∀ (ak sk : String) (env : GDEnv),
      gdRunFails ak sk env = true →
      ∃ e, guardDutyScan ak sk env = .error e)
    ∧ (∀ (env2 : IAMEnv) (e : JSError),
        env2.accountSummaryMFA = .ok false →
        env2.listUsers = .error e →
        iamScan env2 = [iamRootMfaFinding]) := by
  constructor
  · intro ak sk env h
    unfold gdRunFails at h
    unfold guardDutyScan
    by_cases hak : (ak == "" || sk == "") = true
    · rw [hak]
      exact ⟨_, rfl⟩
    · rw [Bool.not_eq_true] at hak
      rw [hak] at h
      simp only [Bool.false_or] at h
      rw [hak]
      simp only [if_false, Bool.false_eq_true]
      cases hd : env.listDetectors with
      | error e => exact ⟨_, rfl⟩
      | ok ds =>
        rw [hd] at h
        cases ds with
        | nil => simp at h
        | cons d ds2 =>
          cases hf : env.listFindingIds with
          | error e => exact ⟨_, rfl⟩
          | ok ids =>
            rw [hf] at h
            by_cases hlen : ids.length > 0
            · simp only [if_pos hlen] at h ⊢
              cases hg : env.getFindingDetails with
              | error e => exact ⟨_, rfl⟩
              | ok gs => rw [hg] at h; simp at h
            · simp only [if_neg hlen] at h
              simp at h
  · intro env2 e h1 h2
    simp [iamScan, h1, h2]

/-- Witness for C8: a run whose detector listing fails yields a propagated
error, and an IAM run with MFA off and a failing user listing returns just
the MFA finding. -/
theorem guardduty_never_swallows_witness :
    gdRunFails "AKIAEXAMPLE" "SECRET" gdFailEnv = true
    ∧ (∃ e, guardDutyScan "AKIAEXAMPLE" "SECRET" gdFailEnv = .error e)
    ∧ iamScan iamErrEnv = [iamRootMfaFinding] :=
  ⟨by decide,
   guardduty_never_swallows.1 "AKIAEXAMPLE" "SECRET" gdFailEnv (by decide),
   guardduty_never_swallows.2 iamErrEnv plainBoom rfl rfl⟩
